import Mathlib

/-!
# Verification of the vorbisfile binding layer (`src/lib.rs`, `src/ffi.rs`)

Shallow embedding of the Rust Ogg Vorbis binding:

* the native status codes of `ffi.rs` and the mapper `OVError::from_native`;
* the read trampoline `VorbisFile::read` (byte-level semantics over a modelled
  buffer and a modelled `Read` source);
* the stub callbacks `seek`, `tell`, `close`;
* the lifecycle functions `VorbisFile::new`, `VorbisFile::decode`,
  `VorbisFile::comment` and the `Drop` impl, with the native library's
  responses supplied as explicit oracle values;
* the self-pointer (`datasource`) bookkeeping of `callback_setup`.

Machine integers: the C ints involved are statuses and small counts, far from
any wrap-around, so they are modelled as `Int`/`Nat`.  Raw memory touched by
the trampoline is modelled as a list of `Option Nat` cells (`none` =
never-written byte).  Heap addresses are abstract naturals.
-/

namespace Vorbisfile

/-! ## Status codes (`src/ffi.rs`, lines 24–36) -/

def OV_FALSE : Int := -1

def OV_HOLE : Int := -3

def OV_EREAD : Int := -128

def OV_EFAULT : Int := -129

def OV_EIMPL : Int := -130

def OV_EINVAL : Int := -131

def OV_ENOTVORBIS : Int := -132

def OV_EBADHEADER : Int := -133

def OV_EVERSION : Int := -134

def OV_ENOTAUDIO : Int := -135

def OV_EBADPACKET : Int := -136

def OV_EBADLINK : Int := -137

def OV_ENOSEEK : Int := -138

/-- The error taxonomy of `lib.rs` (`enum OVError`, lines 28–56).
The Rust enum has exactly these eleven variants; there is no
`UnknownNativeStatus` variant in the source. -/
inductive OVError where
  | EndOfStream
  | StreamInterrupted
  | ReadError
  | InternalFault
  | NotImplemented
  | InvalidArgument
  | NotVorbis
  | InvalidHeader
  | UnsupportedVersion
  | CorruptLink
  | NotSeekable
deriving DecidableEq, Repr

/-- `OVError::from_native` (`lib.rs`, lines 85–99).  The Rust `match` maps ten
codes and executes `panic!("Unexpected OVError code: ...")` on every other
input; the panic (process abort) is modelled as `none`. -/
def from_native (code : Int) : Option OVError :=
  if code = OV_HOLE then some .StreamInterrupted
  else if code = OV_EREAD then some .ReadError
  else if code = OV_EFAULT then some .InternalFault
  else if code = OV_EIMPL then some .NotImplemented
  else if code = OV_EINVAL then some .InvalidArgument
  else if code = OV_ENOTVORBIS then some .NotVorbis
  else if code = OV_EBADHEADER then some .InvalidHeader
  else if code = OV_EVERSION then some .UnsupportedVersion
  else if code = OV_EBADLINK then some .CorruptLink
  else if code = OV_ENOSEEK then some .NotSeekable
  else none

/-! ## The caller-supplied source (`R: Read`)

A `Read` source is modelled by the bytes it still holds plus a script of
per-call behaviours: `ReadStep.give m` makes the next `read` call deliver at
most `m` bytes (a fragmenting source), `ReadStep.fail` makes it return
`Err(_)`.  When the script is exhausted the source behaves like an ordinary
unfragmented source, delivering as much as is asked for and available.  A
`read` on an empty source delivers 0 bytes, i.e. `Ok(0)` — EOF. -/

inductive ReadStep where
  | give (maxBytes : Nat)
  | fail
deriving DecidableEq, Repr

structure Src where
  data : List Nat
  steps : List ReadStep
deriving DecidableEq, Repr

/-- Outcome of one `Read::read` call: `Ok(bytes)` (their number may be short
of the request) or `Err(_)`. -/
inductive ReadResult where
  | ok (bytes : List Nat)
  | err
deriving DecidableEq, Repr

/-- One call `src.read(buf)` with `buf.len() = cap`. -/
def srcRead (s : Src) (cap : Nat) : ReadResult × Src :=
  match s.steps with
  | [] => (.ok (s.data.take cap), ⟨s.data.drop cap, []⟩)
  | .fail :: rest => (.err, ⟨s.data, rest⟩)
  | .give m :: rest =>
      let n := min cap m
      (.ok (s.data.take n), ⟨s.data.drop n, rest⟩)

/-- `src.by_ref().take(size).read(buf)` (`lib.rs`, line 291): `Take` with
limit 0 returns `Ok(0)` without consulting the underlying reader. -/
def takeRead (s : Src) (cap : Nat) : ReadResult × Src :=
  if cap = 0 then (.ok [], s) else srcRead s cap

theorem srcRead_ok_len (s : Src) (cap : Nat) (bytes : List Nat) (s' : Src)
    (h : srcRead s cap = (.ok bytes, s')) : bytes.length ≤ cap := by
  unfold srcRead at h
  cases hs : s.steps with
  | nil =>
    rw [hs] at h
    cases h
    simp only [List.length_take_le]
  | cons st rest =>
    cases st with
    | give m =>
      rw [hs] at h
      simp only at h
      cases h
      calc (s.data.take (min cap m)).length ≤ min cap m := by
            simp only [List.length_take_le]
        _ ≤ cap := Nat.min_le_left _ _
    | fail =>
      rw [hs] at h
      cases h

theorem takeRead_ok_len (s : Src) (cap : Nat) (bytes : List Nat) (s' : Src)
    (h : takeRead s cap = (.ok bytes, s')) : bytes.length ≤ cap := by
  unfold takeRead at h
  by_cases hc : cap = 0
  · rw [if_pos hc] at h
    cases h
    simp
  · rw [if_neg hc] at h
    exact srcRead_ok_len s cap bytes s' h

/-! ## The byte buffer handed over by the native library -/

/-- Raw memory cells: `none` is a byte that was never written. -/
abbrev Mem := List (Option Nat)

/-- Write `bytes` into `mem` starting at absolute offset `off` (the effect the
source's `read` has on the `from_raw_parts_mut` slice). -/
def writeAt : Mem → Nat → List Nat → Mem
  | mem, _, [] => mem
  | mem, off, b :: bs => writeAt (mem.set off (some b)) (off + 1) bs

/-! ## The read trampoline (`VorbisFile::read`, `lib.rs` lines 282–311)

```rust
for i in 0..nmemb {
    let more = unsafe {
        let bufp = ptr.offset(i as isize);
        let buf = from_raw_parts_mut(bufp, size as usize);
        match (*vf).src.by_ref().take(size).read(buf) {
            Ok(n) if n == (size as usize) => true,
            Ok(0) | Err(_) => false,
            Ok(n) => {
                VorbisFile::<R>::read(bufp as *mut _, size - n as size_t, 1, datasource);
                true
            }
        }
    };
    if !more { return i; }
}
return nmemb;
```

`ovReadGo mem s base size i rem` is the loop with `i` elements already done
and `rem` iterations left; the element pointer is `base + i`, exactly the
source's `ptr.offset(i as isize)` (a *byte* offset, not an element offset).
The partial-read arm recurses on the same function with the element's base
pointer and the remaining byte count, and discards the recursive result,
again exactly as the source does. -/

def ovReadGo (mem : Mem) (s : Src) (base size i rem : Nat) : Nat × Mem × Src :=
  match rem with
  | 0 => (i, mem, s)
  | rem' + 1 =>
    let bufp := base + i
    match hr : takeRead s size with
    | (.err, s') => (i, mem, s')
    | (.ok bytes, s') =>
      if bytes.length = size then
        ovReadGo (writeAt mem bufp bytes) s' base size (i + 1) rem'
      else if bytes.length = 0 then
        (i, mem, s')
      else
        let inner := ovReadGo (writeAt mem bufp bytes) s' bufp (size - bytes.length) 0 1
        ovReadGo inner.2.1 inner.2.2 base size (i + 1) rem'
  termination_by (size, rem)
  decreasing_by
  · exact Prod.Lex.right size (Nat.lt_succ_self rem')
  · apply Prod.Lex.left
    have hle : bytes.length ≤ size := takeRead_ok_len s size bytes s' hr
    have hpos : 0 < bytes.length := Nat.pos_of_ne_zero (by assumption)
    exact Nat.sub_lt (Nat.lt_of_lt_of_le hpos hle) hpos
  · exact Prod.Lex.right size (Nat.lt_succ_self rem')

/-- `VorbisFile::read(buffer, size, nmemb, datasource)`: returns the element
count the trampoline reports, together with the final buffer memory and
source state. -/
def ovRead (mem : Mem) (s : Src) (base size nmemb : Nat) : Nat × Mem × Src :=
  ovReadGo mem s base size 0 nmemb

/-! ## The stub callbacks (`lib.rs`, lines 118–132)

Each takes the opaque `datasource` context (modelled by the source state it
stands for) and ignores it, returning a constant. -/

/-- `extern "C" fn seek(datasource, offset, whence) -> c_int { -1 }`. -/
def seek (s : Src) (_offset : Int) (_whence : Int) : Int × Src := (-1, s)

/-- `extern "C" fn close(datasource) -> c_int { 0 }`. -/
def close (s : Src) : Int × Src := (0, s)

/-- `extern "C" fn tell(datasource) -> c_long { -1 }`. -/
def tell (s : Src) : Int × Src := (-1, s)

/-! ## The Decoder and its self-pointer bookkeeping

`VorbisFile<R>` holds `src`, the native `OggVorbis_File` block (`decoder`) and
the `channels` descriptor vector.  The only piece of the opaque native block
the wrapper ever touches is its first field `datasource`, modelled here as
`Option Nat`: `none` means the field was never written by the wrapper
(`mem::uninitialized` garbage), `some a` means the wrapper stored address `a`.
Addresses are abstract naturals; `addr` is the current storage address of the
whole `VorbisFile` value and `srcOffset` the (layout-dependent, unspecified)
byte offset of the `src` field inside it. -/

/-- A channel descriptor: `raw::Slice { data, len }` — pointer and length. -/
abbrev Desc := Nat × Nat

structure VF where
  addr : Nat
  srcOffset : Nat
  datasource : Option Nat
  channels : List Desc
deriving DecidableEq, Repr

/-- `VorbisFile::callback_setup` (`lib.rs`, lines 143–146): store the
decoder's own current address into the native block's `datasource` field. -/
def callback_setup (vf : VF) : VF :=
  { vf with datasource := some vf.addr }

/-- The two values that matter at the `ov_open_callbacks` invocation inside
`VorbisFile::new` (`lib.rs`, lines 162–166): the `datasource` field of the
(still `mem::uninitialized`) native block at that moment, and the context
argument passed, which is `&mut vf.src as *mut _ as *mut c_void` — the
address of the `src` *field*, i.e. `addr + srcOffset`.  `callback_setup` is
not called on this path. -/
def newOpenCall (addr srcOffset : Nat) : Option Nat × Nat :=
  (none, addr + srcOffset)

/-- The decoder state at the moment `ov_read_float` is invoked inside
`decode` (`lib.rs`, line 238 runs `self.callback_setup()` first). -/
def decodeCallState (vf : VF) : VF := callback_setup vf

/-- The decoder state at the moment `ov_clear` is invoked inside the `Drop`
impl (`lib.rs`, lines 314–321: `callback_setup` then `ov_clear`). -/
def dropCallState (vf : VF) : VF := callback_setup vf

/-! ## Construction (`VorbisFile::new`, `lib.rs` lines 149–180)

The native library's side of `ov_open_callbacks` is an oracle: the status it
returns.  The model records what the wrapper does with each status: the value
returned to the caller (`none` standing for the `panic!` inside
`from_native`), whether `ov_clear` was invoked during `new`, and whether the
caller-supplied source's destructor ran during `new`.  On the failure path
the code runs `mem::forget(vf)` before returning, so the drop glue of the
local `vf` — which would run `ov_clear` on the uninitialized block and drop
`src` — is suppressed; on the success path `vf` is moved out to the caller. -/

deriving instance DecidableEq for Except

structure NewResult where
  ret : Option (Except OVError Nat)
  clearCalled : Bool
  srcDropped : Bool
deriving DecidableEq, Repr

/-- What dropping the local `vf` at scope exit would do (`Drop for
VorbisFile` runs `ov_clear`, then the fields, `src` included, are dropped),
unless the value was `mem::forget`-ten or moved out. -/
def scopeDrop (forgotten : Bool) : Bool × Bool :=
  if forgotten then (false, false) else (true, true)

/-- `VorbisFile::new(src)` as a function of the `ov_open_callbacks` status.
`srcId` identifies the caller's source; on success it is owned by the
returned decoder. -/
def vfNew (srcId : Nat) (status : Int) : NewResult :=
  if status = 0 then
    { ret := some (.ok srcId), clearCalled := false, srcDropped := false }
  else
    let (clr, sd) := scopeDrop true
    { ret := (from_native status).map Except.error, clearCalled := clr, srcDropped := sd }

/-! ## Decoding (`VorbisFile::decode`, `lib.rs` lines 236–276) -/

/-- The native library's response to one `ov_read_float` call, together with
the `ov_info` lookup `decode` performs on success: `samples` is the
`ov_read_float` return value, `chanCount` the `channels` field of
`ov_info(&mut self.decoder, bitstream_idx)`, and `bufAddr i` the address
`sample_buffer[i]` of channel `i`'s output buffer. -/
structure ReadFloatResp where
  samples : Int
  chanCount : Nat
  bufAddr : Nat → Nat

/-- The push loop `for i in 0..n_channels { self.channels.push(...) }`
(`lib.rs`, lines 263–272) run on an emptied vector: descriptor `i` is
`(sample_buffer[i], n_samples)`, pushed in ascending order of `i`. -/
def pushChannels (bufAddr : Nat → Nat) (len : Nat) : Nat → List Desc
  | 0 => []
  | k + 1 => pushChannels bufAddr len k ++ [(bufAddr k, len)]

/-- `VorbisFile::decode`: `callback_setup` first, then the three-way match on
`ov_read_float`'s result; on success `self.channels` is truncated to 0 and
refilled with `chanCount` descriptors of length `samples`.  The `none` result
models the `panic!` inside `from_native` on an unmapped negative status. -/
def decode (vf : VF) (r : ReadFloatResp) : VF × Option (Except OVError (List Desc)) :=
  let vf1 := callback_setup vf
  if r.samples = 0 then
    (vf1, some (.error .EndOfStream))
  else if r.samples < 0 then
    (vf1, (from_native r.samples).map Except.error)
  else
    let chans := pushChannels r.bufAddr r.samples.toNat r.chanCount
    ({ vf1 with channels := chans }, some (.ok chans))

/-! ## Comments (`VorbisFile::comment`, `lib.rs` lines 187–230) -/

/-- UTF-8 continuation byte `0x80–0xBF`. -/
def isUtf8Cont (b : Nat) : Bool := 0x80 ≤ b && b ≤ 0xBF

/-- Validity of a byte sequence as UTF-8, as checked by Rust's
`str::from_utf8`: no overlong forms, no surrogates, nothing above
`U+10FFFF`. -/
def isValidUtf8 : List Nat → Bool
  | [] => true
  | b :: rest =>
    if b ≤ 0x7F then isValidUtf8 rest
    else if 0xC2 ≤ b && b ≤ 0xDF then
      match rest with
      | c1 :: rest1 => isUtf8Cont c1 && isValidUtf8 rest1
      | [] => false
    else if b = 0xE0 then
      match rest with
      | c1 :: c2 :: rest2 =>
          (0xA0 ≤ c1 && c1 ≤ 0xBF) && isUtf8Cont c2 && isValidUtf8 rest2
      | _ => false
    else if (0xE1 ≤ b && b ≤ 0xEC) || b = 0xEE || b = 0xEF then
      match rest with
      | c1 :: c2 :: rest2 => isUtf8Cont c1 && isUtf8Cont c2 && isValidUtf8 rest2
      | _ => false
    else if b = 0xED then
      match rest with
      | c1 :: c2 :: rest2 =>
          (0x80 ≤ c1 && c1 ≤ 0x9F) && isUtf8Cont c2 && isValidUtf8 rest2
      | _ => false
    else if b = 0xF0 then
      match rest with
      | c1 :: c2 :: c3 :: rest3 =>
          (0x90 ≤ c1 && c1 ≤ 0xBF) && isUtf8Cont c2 && isUtf8Cont c3 &&
            isValidUtf8 rest3
      | _ => false
    else if 0xF1 ≤ b && b ≤ 0xF3 then
      match rest with
      | c1 :: c2 :: c3 :: rest3 =>
          isUtf8Cont c1 && isUtf8Cont c2 && isUtf8Cont c3 && isValidUtf8 rest3
      | _ => false
    else if b = 0xF4 then
      match rest with
      | c1 :: c2 :: c3 :: rest3 =>
          (0x80 ≤ c1 && c1 ≤ 0x8F) && isUtf8Cont c2 && isUtf8Cont c3 &&
            isValidUtf8 rest3
      | _ => false
    else false

/-- `CStr::from_ptr(p).to_bytes()`: the bytes before the first NUL. -/
def cString (bs : List Nat) : List Nat := bs.takeWhile (· ≠ 0)

/-- The native `vorbis_comment` block as `ov_comment` exposes it when
non-null: the `vendor` C string's underlying bytes, and per entry `i` the
first `comment_lengths[i]` bytes behind `user_comments[i]` (length-prefixed,
not NUL-terminated). -/
structure NativeComments where
  vendor : List Nat
  entries : List (List Nat)
deriving DecidableEq, Repr

/-- The `Comments` struct of `lib.rs` (lines 111–116); borrowed strings are
modelled by their bytes. -/
structure CommentsM where
  vendor : List Nat
  comments : List (List Nat)
deriving DecidableEq, Repr

/-- The bytes of the literal `"<INVALID UTF-8>"` substituted for an invalid
vendor string (`lib.rs`, line 207). -/
def invalidUtf8Marker : List Nat :=
  [60, 73, 78, 86, 65, 76, 73, 68, 32, 85, 84, 70, 45, 56, 62]

/-- The collection loop of `comment` (`lib.rs`, lines 213–227): for each of
the native entries in order, `make_str` (UTF-8 check over the
length-prefixed bytes); push on `Some`, ignore on `None`. -/
def collectComments : List (List Nat) → List (List Nat)
  | [] => []
  | e :: rest =>
    if isValidUtf8 e then e :: collectComments rest else collectComments rest

/-- `VorbisFile::comment`: `none` when `ov_comment` returned null; otherwise
the vendor C string (with the `"<INVALID UTF-8>"` fallback) and the valid-
UTF-8 entries in order, invalid ones silently skipped. -/
def comment (nc : Option NativeComments) : Option CommentsM :=
  match nc with
  | none => none
  | some cm =>
    some { vendor :=
             let vb := cString cm.vendor
             if isValidUtf8 vb then vb else invalidUtf8Marker,
           comments := collectComments cm.entries }

/-! ## Helper lemmas -/

theorem pushChannels_length (f : Nat → Nat) (len : Nat) :
    ∀ n, (pushChannels f len n).length = n := by
  intro n
  induction n with
  | zero => rfl
  | succ k ih => simp [pushChannels, ih]

theorem pushChannels_len_mem (f : Nat → Nat) (len : Nat) :
    ∀ n, ∀ d ∈ pushChannels f len n, d.2 = len := by
  intro n
  induction n with
  | zero => intro d hd; cases hd
  | succ k ih =>
    intro d hd
    rcases List.mem_append.1 hd with h | h
    · exact ih d h
    · rcases List.mem_singleton.1 h with rfl
      rfl

theorem collectComments_eq_filter (l : List (List Nat)) :
    collectComments l = l.filter fun e => isValidUtf8 e := by
  induction l with
  | nil => rfl
  | cons e rest ih =>
    by_cases he : isValidUtf8 e
    · simp [collectComments, he, ih, List.filter]
    · simp [collectComments, he, ih, List.filter]

/-! ## The claims -/

/-- C1: the claim says a partial read of an element is retried with the
remaining byte count *placing the newly read bytes after the bytes already
read*, so the element assembles every byte exactly once.  The code retries
with the element's base pointer instead (`lib.rs`, line 299 passes `bufp`,
not `bufp.offset(n)`), so the retry overwrites the bytes already read and
the tail of the element stays unwritten: an element of size 4 served as a
3-byte fragment then the rest assembles as `[13, 11, 12, ⊥]` instead of
`[10, 11, 12, 13]`.  The third conjunct shows the element stride is also one
byte instead of `size` (`ptr.offset(i)`, line 289), so with size 2 × 2
elements the second element overwrites the first one's tail. -/
theorem read_retry_overwrites_prior_bytes :
    (ovRead (List.replicate 4 none) ⟨[10, 11, 12, 13], [ReadStep.give 3]⟩ 0 4 1).2.1
        = [some 13, some 11, some 12, none] ∧
    (ovRead (List.replicate 4 none) ⟨[10, 11, 12, 13], [ReadStep.give 3]⟩ 0 4 1).2.1
        ≠ [some 10, some 11, some 12, some 13] ∧
    (ovRead (List.replicate 4 none) ⟨[1, 2, 3, 4], []⟩ 0 2 2).2.1
        = [some 1, some 3, some 4, none] := by
  refine ⟨?_, ?_, ?_⟩ <;>
    simp [ovRead, ovReadGo, takeRead, srcRead, writeAt]

/-- C2: the claim says the trampoline's return value counts only elements
whose bytes were completely filled, and an element whose retry did not
complete is never counted.  The code discards the recursive retry's result
(`lib.rs`, line 299) and reports the element complete anyway: with element
size 2 and a source holding a single byte, the trampoline returns 1 although
the element's second byte was never filled (the final buffer is
`[some 7, none]`). -/
theorem read_reports_incomplete_element_as_complete :
    (ovRead (List.replicate 2 none) ⟨[7], []⟩ 0 2 1).1 = 1 ∧
    (ovRead (List.replicate 2 none) ⟨[7], []⟩ 0 2 1).2.1 = [some 7, none] := by
  constructor <;> simp [ovRead, ovReadGo, takeRead, srcRead, writeAt]

/-- C3: the claim says the mapper is total — every code of the known set
(including the `OV_FALSE` sentinel, `OV_ENOTAUDIO` and `OV_EBADPACKET`) maps
to an `ErrorKind` and any other code maps to `UnknownNativeStatus` instead of
aborting.  The code maps only ten codes and `panic!`s (modelled `none`) on
everything else, `OV_FALSE`, `OV_ENOTAUDIO` and `OV_EBADPACKET` included;
no `UnknownNativeStatus` variant exists. -/
theorem from_native_unknown_codes_abort :
    from_native OV_HOLE = some OVError.StreamInterrupted ∧
    from_native OV_EREAD = some OVError.ReadError ∧
    from_native OV_EFAULT = some OVError.InternalFault ∧
    from_native OV_EIMPL = some OVError.NotImplemented ∧
    from_native OV_EINVAL = some OVError.InvalidArgument ∧
    from_native OV_ENOTVORBIS = some OVError.NotVorbis ∧
    from_native OV_EBADHEADER = some OVError.InvalidHeader ∧
    from_native OV_EVERSION = some OVError.UnsupportedVersion ∧
    from_native OV_EBADLINK = some OVError.CorruptLink ∧
    from_native OV_ENOSEEK = some OVError.NotSeekable ∧
    from_native OV_FALSE = none ∧
    from_native OV_ENOTAUDIO = none ∧
    from_native OV_EBADPACKET = none ∧
    from_native 42 = none ∧
    from_native (-200) = none := by
  decide

/-- C4 (counterexample): at the moment `ov_open_callbacks` is invoked inside
`VorbisFile::new`, the native block's `datasource` field has never been
written (`mem::uninitialized`), so it does not equal the decoder's current
address; moreover the context argument actually passed is the address of the
`src` *field*, which differs from the decoder's address whenever the field
offset is nonzero. -/
theorem open_call_context_not_decoder_address :
    (newOpenCall 100 0).1 ≠ some 100 ∧ (newOpenCall 100 16).2 ≠ 100 := by
  decide

/-- C4 (amended): before the native calls that fire callbacks in `decode`
(`ov_read_float`) and in `Drop` (`ov_clear`), `callback_setup` rewrites the
`datasource` field to the decoder's current address; `new` instead leaves the
uninitialized field untouched and passes the address of the `src` field
(`addr + srcOffset`) as the context argument of `ov_open_callbacks`. -/
theorem self_pointer_refreshed_before_decode_and_drop (vf : VF) :
    (decodeCallState vf).datasource = some vf.addr ∧
    (dropCallState vf).datasource = some vf.addr ∧
    (∀ r, (decode vf r).1.datasource = some vf.addr) ∧
    ∀ a off, newOpenCall a off = (none, a + off) := by
  refine ⟨rfl, rfl, fun r => ?_, fun a off => rfl⟩
  simp only [decode]
  split_ifs <;> rfl

/-- C5: `decode` has exactly three outcomes — zero samples gives
`EndOfStream`, a negative status gives the mapper's error, and a positive
count `n` succeeds with one descriptor per channel of the active sub-stream,
all of length `n` with `0 < n ≤ 4096`, the channel vector being rebuilt from
scratch so the previous call's descriptors never influence the result. -/
theorem decode_outcome_trichotomy (vf : VF) (r : ReadFloatResp)
    (hmax : r.samples ≤ 4096) :
    (r.samples = 0 → (decode vf r).2 = some (.error OVError.EndOfStream)) ∧
    (∀ e, r.samples < 0 → from_native r.samples = some e →
        (decode vf r).2 = some (.error e)) ∧
    (0 < r.samples →
        ∃ bufs, (decode vf r).2 = some (.ok bufs) ∧
          (decode vf r).1.channels = bufs ∧
          bufs.length = r.chanCount ∧
          (∀ d ∈ bufs, d.2 = r.samples.toNat ∧ 0 < d.2 ∧ d.2 ≤ 4096) ∧
          ∀ prev, (decode { vf with channels := prev } r).2 = (decode vf r).2) := by
  refine ⟨fun h0 => ?_, fun e hneg he => ?_, fun hpos => ?_⟩
  · simp [decode, h0]
  · have h0 : ¬ r.samples = 0 := by omega
    simp [decode, h0, if_neg h0, hneg, he]
  · have h0 : ¬ r.samples = 0 := by omega
    have hneg : ¬ r.samples < 0 := by omega
    refine ⟨pushChannels r.bufAddr r.samples.toNat r.chanCount, ?_, ?_, ?_, ?_, ?_⟩
    · simp [decode, h0, hneg]
    · simp [decode, h0, hneg]
    · exact pushChannels_length _ _ _
    · intro d hd
      have hlen := pushChannels_len_mem r.bufAddr r.samples.toNat r.chanCount d hd
      refine ⟨hlen, by omega, by omega⟩
    · intro prev
      simp only [decode]
      rw [if_neg h0, if_neg hneg, if_neg h0, if_neg hneg]

/-- C5 (witness): the trichotomy instantiated at a concrete successful
response (3 samples, 2 channels). -/
theorem decode_outcome_trichotomy_witness :
    ((3 : Int) ≤ 4096) ∧
    (((3 : Int) = 0 →
        (decode ⟨0, 0, none, []⟩ ⟨3, 2, fun i => i⟩).2
          = some (.error OVError.EndOfStream)) ∧
     (∀ e, (3 : Int) < 0 → from_native 3 = some e →
        (decode ⟨0, 0, none, []⟩ ⟨3, 2, fun i => i⟩).2 = some (.error e)) ∧
     (0 < (3 : Int) →
        ∃ bufs, (decode ⟨0, 0, none, []⟩ ⟨3, 2, fun i => i⟩).2 = some (.ok bufs) ∧
          (decode ⟨0, 0, none, []⟩ ⟨3, 2, fun i => i⟩).1.channels = bufs ∧
          bufs.length = 2 ∧
          (∀ d ∈ bufs, d.2 = (3 : Int).toNat ∧ 0 < d.2 ∧ d.2 ≤ 4096) ∧
          ∀ prev, (decode ⟨0, 0, none, prev⟩ ⟨3, 2, fun i => i⟩).2
            = (decode ⟨0, 0, none, []⟩ ⟨3, 2, fun i => i⟩).2)) :=
  ⟨by decide, decode_outcome_trichotomy ⟨0, 0, none, []⟩ ⟨3, 2, fun i => i⟩ (by decide)⟩

/-- C6: when `ov_open_callbacks` reports a nonzero status, `new` returns the
mapped error (for every status the mapper handles) and `ov_clear` is never
invoked on the uninitialized native block: `mem::forget(vf)` suppresses the
drop glue on the failure path. -/
theorem open_failure_returns_error_without_clear (srcId : Nat) (status : Int)
    (h : status ≠ 0) :
    (vfNew srcId status).clearCalled = false ∧
    ∀ e, from_native status = some e →
      (vfNew srcId status).ret = some (.error e) := by
  unfold vfNew scopeDrop
  rw [if_neg h]
  exact ⟨rfl, fun e he => by simp [he]⟩

/-- C6 (witness): instantiated at the `OV_ENOTVORBIS` open status. -/
theorem open_failure_returns_error_without_clear_witness :
    ((-132 : Int) ≠ 0) ∧
    ((vfNew 0 (-132)).clearCalled = false ∧
     ∀ e, from_native (-132) = some e →
       (vfNew 0 (-132)).ret = some (.error e)) :=
  ⟨by decide, open_failure_returns_error_without_clear 0 (-132) (by decide)⟩

/-- C7: `comment` returns `none` exactly on a null `ov_comment` result;
otherwise it always succeeds, with the vendor C string (or its fallback) and
exactly the entries whose length-prefixed bytes decode as valid UTF-8, in
order — a malformed entry is skipped, never an error for the whole call. -/
theorem comment_none_iff_null_and_skips_invalid :
    comment none = none ∧
    ∀ cm, comment (some cm) =
      some { vendor := if isValidUtf8 (cString cm.vendor) then cString cm.vendor
                       else invalidUtf8Marker,
             comments := cm.entries.filter fun e => isValidUtf8 e } := by
  refine ⟨rfl, fun cm => ?_⟩
  simp [comment, collectComments_eq_filter]

/-- C8: the seek and tell callbacks report failure (`-1`) for every input
and the close callback reports success (`0`); none of them touches the
source. -/
theorem stub_callbacks_constant (s : Src) (off wh : Int) :
    (seek s off wh).1 = -1 ∧ (seek s off wh).1 ≠ 0 ∧ (seek s off wh).2 = s ∧
    (tell s).1 = -1 ∧ (tell s).1 ≠ 0 ∧ (tell s).2 = s ∧
    (close s).1 = 0 ∧ (close s).2 = s :=
  ⟨rfl, by simp [seek], rfl, rfl, by simp [tell], rfl, rfl, rfl⟩

/-- C9: on a failed open the caller-supplied source is neither handed back
(the result is never `Ok`) nor finalized (`mem::forget` suppresses the drop
glue, so the source's destructor does not run): the source is leaked. -/
theorem open_failure_leaks_source (srcId : Nat) (status : Int)
    (h : status ≠ 0) :
    (vfNew srcId status).srcDropped = false ∧
    ∀ s, (vfNew srcId status).ret ≠ some (.ok s) := by
  unfold vfNew scopeDrop
  rw [if_neg h]
  refine ⟨rfl, fun s => ?_⟩
  cases hfn : from_native status <;> simp [hfn]

/-- C9 (witness): instantiated at the `OV_EREAD` open status. -/
theorem open_failure_leaks_source_witness :
    ((-128 : Int) ≠ 0) ∧
    ((vfNew 7 (-128)).srcDropped = false ∧
     ∀ s, (vfNew 7 (-128)).ret ≠ some (.ok s)) :=
  ⟨by decide, open_failure_leaks_source 7 (-128) (by decide)⟩

/-- C10: when the vendor C string is not valid UTF-8, `comment` still
succeeds and substitutes the fixed `"<INVALID UTF-8>"` placeholder for the
vendor field. -/
theorem invalid_vendor_replaced_by_marker (cm : NativeComments)
    (h : isValidUtf8 (cString cm.vendor) = false) :
    ∃ c, comment (some cm) = some c ∧ c.vendor = invalidUtf8Marker := by
  refine ⟨_, rfl, ?_⟩
  simp [h]

/-- C10 (witness): a vendor byte string `[0xFF]` is invalid UTF-8 and is
replaced by the placeholder. -/
theorem invalid_vendor_replaced_by_marker_witness :
    (isValidUtf8 (cString [255]) = false) ∧
    ∃ c, comment (some ⟨[255], [[97]]⟩) = some c ∧ c.vendor = invalidUtf8Marker :=
  ⟨by decide, invalid_vendor_replaced_by_marker ⟨[255], [[97]]⟩ (by decide)⟩

end Vorbisfile
